import Mathlib

/-!
# Relational database facade (`relational/relational_database.go`)

A shallow embedding of the `RelationalDatabase` facade over an external record
store (gorm).  Store calls are made explicit: every operation takes the store's
behaviour and the list of calls issued so far, and returns its Go result
together with the extended list of calls.  A Go panic is an explicit outcome.
-/

namespace relational

/-! ## Go values seen through reflection -/

/-- The Go types a struct field can be declared with, as far as the facade can
tell them apart (`reflect.Type` equality). -/
inductive GoType
  | int64
  | int
  | uint
  | string
  | bool
  | emptyInterface
  | named (name : String)
  deriving DecidableEq, Repr

/-- A value boxed in an `interface{}`: it carries its dynamic type. -/
inductive GoValue
  | int64 (v : Int)
  | int (v : Int)
  | uint (v : Nat)
  | string (s : String)
  | bool (b : Bool)
  | named (typeName : String) (v : Int)
  | nil
  deriving DecidableEq, Repr

/-- The dynamic type of a boxed value; the nil interface has none. -/
def GoValue.dynamicType : GoValue → Option GoType
  | .int64 _ => some .int64
  | .int _ => some .int
  | .uint _ => some .uint
  | .string _ => some .string
  | .bool _ => some .bool
  | .named n _ => some (.named n)
  | .nil => none

/-- One field of a struct value: its name, its declared type and its current
value. -/
structure Field where
  name : String
  declared : GoType
  value : GoValue
  deriving DecidableEq, Repr

/-- Go's typing of a field: unless the field is declared `interface{}`, the
value it holds has exactly the declared type. -/
def Field.wellTyped (f : Field) : Prop :=
  f.declared = GoType.emptyInterface ∨ f.value.dynamicType = some f.declared

instance (f : Field) : Decidable f.wellTyped := by
  unfold Field.wellTyped; infer_instance

/-- A value passed as `interface{}` to the facade: what `interfaces.GetTypeName`
reports for it and the fields reflection finds in it. -/
structure Model where
  typeName : String
  fields : List Field
  deriving DecidableEq, Repr

/-- The first field of the struct with the given name, if any. -/
def Model.field (m : Model) (name : String) : Option Field :=
  m.fields.find? (fun f => f.name == name)

/-- A Go `error` value returned by the facade (`none` stands for `nil`). -/
inductive GoError
  /-- the error of `fields.GetTypeAndValue`, handed on unchanged -/
  | reflection (entity : String) (field : String)
  /-- an error built by `fmt.Errorf`, with its `Error()` text -/
  | errorf (text : String)
  deriving DecidableEq, Repr

/-- Why a call panicked. -/
inductive Panic
  /-- `x.(int64)` on a value whose dynamic type is not `int64` -/
  | interfaceConversion (dynamic : Option GoType)
  /-- `log.Panicln(err)` -/
  | logPanicln (text : String)
  deriving DecidableEq, Repr

/-- How a Go call ends: it returns a value or it panics. -/
inductive Outcome (α : Type)
  | ret (a : α)
  | panic (p : Panic)
  deriving DecidableEq, Repr

/-! ## `fmt.Sprintf` -/

/-- The text `fmt.Sprintf` prints for a missing operand. -/
def missingOperand (verb : Char) : List Char :=
  '%' :: '!' :: verb :: "(MISSING)".data

/-- Interpreter of `fmt.Sprintf` for the verbs the facade uses (`%v`, `%s`);
each operand is given by the text the verb prints for it. -/
def sprintfChars : List Char → List String → List Char
  | '%' :: 'v' :: rest, a :: args => a.data ++ sprintfChars rest args
  | '%' :: 's' :: rest, a :: args => a.data ++ sprintfChars rest args
  | '%' :: 'v' :: rest, [] => missingOperand 'v' ++ sprintfChars rest []
  | '%' :: 's' :: rest, [] => missingOperand 's' ++ sprintfChars rest []
  | c :: rest, args => c :: sprintfChars rest args
  | [], _ => []

/-- Model of `fmt.Sprintf(format, args...)`. -/
def Sprintf (format : String) (args : List String) : String :=
  String.mk (sprintfChars format.data args)

/-- Model of `fmt.Errorf(format, args...)`. -/
def Errorf (format : String) (args : List String) : GoError :=
  GoError.errorf (Sprintf format args)

/-- The text `%v` prints for an `int64`. -/
def formatInt64 (v : Int) : String := toString v

/-! ## Reflection helpers -/

/-- Model of `fields.GetTypeAndValue(entity, fieldName)` of the external
reflection package: the declared type and the boxed value of the named field,
or that package's error when the struct has no such field. -/
def GetTypeAndValue (entity : Model) (fieldName : String) :
    Except GoError (GoType × GoValue) :=
  match entity.field fieldName with
  | some f => .ok (f.declared, f.value)
  | none => .error (GoError.reflection entity.typeName fieldName)

/-- Model of `interfaces.GetTypeName(model)`. -/
def GetTypeName (model : Model) : String := model.typeName

/-- Source: `getEntityID`.  The type check sets `err` but does not return, so
the type assertion `fieldValue.(int64)` runs in every case. -/
def getEntityID (entity : Model) : Outcome (Int × Option GoError) :=
  match GetTypeAndValue entity "ID" with
  | .error err => .ret (0, some err)
  | .ok (fieldType, fieldValue) =>
    let err : Option GoError :=
      if GoType.int64 ≠ fieldType then
        some (Errorf "the \"%v\" entity ID field is not of type int64" [GetTypeName entity])
      else none
    match fieldValue with
    | .int64 id => .ret (id, err)
    | other => .panic (Panic.interfaceConversion other.dynamicType)

/-! ## The record store -/

/-- A store handle (`*gorm.DB`). -/
structure Handle where
  id : Nat
  deriving DecidableEq, Repr

/-- A `gorm.Dialector`; the only one wired is `postgres.Open(dsn)`. -/
inductive Dialector
  | postgres (dsn : String)
  deriving DecidableEq, Repr

/-- The calls the facade issues on the store. -/
inductive StoreCall
  | Open (dialector : Option Dialector)
  | Create (db : Handle) (model : Model)
  | Save (db : Handle) (model : Model)
  | Delete (db : Handle) (model : Model) (id : Nat)
  | First (db : Handle) (model : Model) (key : Nat)
  | Find (db : Handle) (models : Model)
  | WhereFind (db : Handle) (query : Model) (models : Model)
  | Begin (db : Handle)
  | Rollback (db : Handle)
  | Commit (db : Handle)
  | AutoMigrate (db : Handle) (entities : List Model)
  deriving DecidableEq, Repr

/-- The behaviour of the external store: for a call issued after the calls in
`past`, the `Error()` text of the error it reports (`none` for no error) and
the handle it hands back (used for `Open` and `Begin`). -/
structure Store where
  error : (past : List StoreCall) → StoreCall → Option String
  handle : (past : List StoreCall) → StoreCall → Handle

/-- Source: `type RelationalDatabase struct`. -/
structure RelationalDatabase where
  DB : Handle
  connectionName : String
  deriving DecidableEq, Repr

/-- What an operation of the facade yields: how the call ended, and the store
calls issued up to that point. -/
abbrev Run (α : Type) := Outcome α × List StoreCall

/-- The `if err != nil { err = fmt.Errorf("relational database: %s", err) }`
block shared by the operations. -/
def wrapStoreError (err : Option String) : Option GoError :=
  match err with
  | some e => some (Errorf "relational database: %s" [e])
  | none => none

/-! ## Operations -/

/-- Source: `RelationalDatabase.Create`. -/
def Create (database : RelationalDatabase) (model : Model)
    (store : Store) (past : List StoreCall) : Run (Option GoError) :=
  match getEntityID model with
  | .panic p => (.panic p, past)
  | .ret (_, some err) => (.ret (some err), past)
  | .ret (id, none) =>
    if id ≠ 0 then
      (.ret (some (Errorf
        "relational database: it is not possible to insert a model \"%v\" with the pre-filled ID field"
        [GetTypeName model])), past)
    else
      let call := StoreCall.Create database.DB model
      (.ret (wrapStoreError (store.error past call)), past ++ [call])

/-- Source: `RelationalDatabase.Update`. -/
def Update (database : RelationalDatabase) (model : Model)
    (store : Store) (past : List StoreCall) : Run (Option GoError) :=
  match getEntityID model with
  | .panic p => (.panic p, past)
  | .ret (_, some err) => (.ret (some err), past)
  | .ret (id, none) =>
    if id = 0 then
      (.ret (some (Errorf
        "relational database: it is not possible to update a model \"%v\" with the blank ID field"
        [GetTypeName model])), past)
    else
      let call := StoreCall.Save database.DB model
      (.ret (wrapStoreError (store.error past call)), past ++ [call])

/-- Source: `RelationalDatabase.DeleteByID`. -/
def DeleteByID (database : RelationalDatabase) (model : Model) (id : Nat)
    (store : Store) (past : List StoreCall) : Run (Option GoError) :=
  let call := StoreCall.Delete database.DB model id
  (.ret (wrapStoreError (store.error past call)), past ++ [call])

/-- Source: `RelationalDatabase.SelectByID`.  The key handed to `First` is the
literal `10`; the parameter `id` is not used. -/
def SelectByID (database : RelationalDatabase) (model : Model) (_id : Nat)
    (store : Store) (past : List StoreCall) : Run (Option GoError) :=
  let call := StoreCall.First database.DB model 10
  (.ret (wrapStoreError (store.error past call)), past ++ [call])

/-- The error handling shared by `SelectAll` and `Filter`: an error whose text
is "record not found" becomes `nil`, any other error is wrapped. -/
def wrapFindError (err : Option String) : Option GoError :=
  match err with
  | some e => if e = "record not found" then none else wrapStoreError (some e)
  | none => none

/-- Source: `RelationalDatabase.SelectAll`. -/
def SelectAll (database : RelationalDatabase) (models : Model)
    (store : Store) (past : List StoreCall) : Run (Option GoError) :=
  let call := StoreCall.Find database.DB models
  (.ret (wrapFindError (store.error past call)), past ++ [call])

/-- Source: `RelationalDatabase.Filter`. -/
def Filter (database : RelationalDatabase) (models modelFilter : Model)
    (store : Store) (past : List StoreCall) : Run (Option GoError) :=
  let call := StoreCall.WhereFind database.DB modelFilter models
  (.ret (wrapFindError (store.error past call)), past ++ [call])

/-- The function handed to `Transaction`: Go code run against a facade, which
may issue store calls of its own and may panic. -/
abbrev TxFunction :=
  RelationalDatabase → Store → List StoreCall → Run (Option GoError)

/-- Source: `RelationalDatabase.Transaction`.  The results of `Begin`,
`Rollback` and `Commit` are not looked at; a panic of `function` leaves the
body before either is issued. -/
def Transaction (database : RelationalDatabase) (function : TxFunction)
    (store : Store) (past : List StoreCall) : Run (Option GoError) :=
  let begin := StoreCall.Begin database.DB
  let tx := store.handle past begin
  let txDatabase : RelationalDatabase :=
    { DB := tx, connectionName := database.connectionName }
  match function txDatabase store (past ++ [begin]) with
  | (.panic p, calls) => (.panic p, calls)
  | (.ret (some err), calls) =>
    (.ret (some err), calls ++ [StoreCall.Rollback txDatabase.DB])
  | (.ret none, calls) =>
    (.ret none, calls ++ [StoreCall.Commit txDatabase.DB])

/-- Source: `RelationalDatabase.RegisterEntities`. -/
def RegisterEntities (database : RelationalDatabase) (entities : List Model)
    (_store : Store) (past : List StoreCall) : Run Unit :=
  (.ret (), past ++ [StoreCall.AutoMigrate database.DB entities])

/-! ## Connecting -/

/-- The external `environment/variables` package: each lookup returns a value
together with an error (`none` for `nil`). -/
structure Variables where
  Get : String → String × Option String
  GetInt64 : String → Int × Option String

/-- Source: the closure `getParameterFromEnvironment` of `Connect`; the error
is counted and dropped, the value is returned as the lookup gave it. -/
def getParameterFromEnvironment (vars : Variables) (connectionName name : String) :
    String :=
  (vars.Get (Sprintf "TMD_DATABASE_%v_%v" [connectionName, name])).1

/-- Source: the closure `getIntParameterFromEnvironment` of `Connect`. -/
def getIntParameterFromEnvironment (vars : Variables) (connectionName name : String) :
    Int :=
  (vars.GetInt64 (Sprintf "TMD_DB_%v_%v" [connectionName, name])).1

/-- Source: the closure `getDsnFromEnvironment` of `Connect`; the results are
`(databaseType, dsn)` in this order. -/
def getDsnFromEnvironment (vars : Variables) (connectionName : String) :
    String × String :=
  let databaseType := getParameterFromEnvironment vars connectionName "TYPE"
  let host := getParameterFromEnvironment vars connectionName "HOST"
  let port := getIntParameterFromEnvironment vars connectionName "POSTGRES_PORT"
  let sslMode := getParameterFromEnvironment vars connectionName "SSL_MODE"
  let databaseName := getParameterFromEnvironment vars connectionName "NAME"
  let user := getParameterFromEnvironment vars connectionName "USER"
  let password := getParameterFromEnvironment vars connectionName "PASSWORD"
  let dsn := Sprintf "host=%v port=%v sslmode=%v dbname=%v user=%v password=%v"
    [host, formatInt64 port, sslMode, databaseName, user, password]
  (databaseType, dsn)

/-- The dialector chosen by the `switch databaseType` of `Connect`. -/
def selectDialector (databaseType dsn : String) : Option Dialector :=
  if databaseType = "postgres" then some (Dialector.postgres dsn) else none

/-- Source: `RelationalDatabase.Connect`.  The two results of
`getDsnFromEnvironment` are bound as `dsn, databaseType := ...`, the first
result to `dsn` and the second to `databaseType`. -/
def Connect (_database : RelationalDatabase) (name : String) (vars : Variables)
    (store : Store) (past : List StoreCall) :
    Run (RelationalDatabase × Option GoError) :=
  let (dsn, databaseType) := getDsnFromEnvironment vars name
  let dialector := selectDialector databaseType dsn
  let call := StoreCall.Open dialector
  match store.error past call with
  | some e => (.panic (Panic.logPanicln e), past ++ [call])
  | none =>
    (.ret ({ DB := store.handle past call, connectionName := name }, none),
      past ++ [call])

/-! ## Sample inputs -/

/-- A facade bound to store handle 1 under the connection name "main". -/
def sampleDatabase : RelationalDatabase :=
  { DB := { id := 1 }, connectionName := "main" }

/-- The record `{ID: 0, Name: "a"}` of a struct `User` with `ID int64`. -/
def newUser : Model :=
  { typeName := "User",
    fields := [⟨"ID", GoType.int64, GoValue.int64 0⟩, ⟨"Name", GoType.string, GoValue.string "a"⟩] }

/-- The record `{ID: 5, Name: "a"}` of the same struct. -/
def storedUser : Model :=
  { typeName := "User",
    fields := [⟨"ID", GoType.int64, GoValue.int64 5⟩, ⟨"Name", GoType.string, GoValue.string "a"⟩] }

/-- The record `{ID: "abc"}` of a struct `Ticket` with `ID string`. -/
def textTicket : Model :=
  { typeName := "Ticket", fields := [⟨"ID", GoType.string, GoValue.string "abc"⟩] }

/-- A store that reports no error and hands back handle 2. -/
def quietStore : Store :=
  { error := fun _ _ => none, handle := fun _ _ => { id := 2 } }

/-- A store that answers every call with gorm's "record not found". -/
def notFoundStore : Store :=
  { error := fun _ _ => some "record not found", handle := fun _ _ => { id := 2 } }

/-- A function for `Transaction` that creates the given record. -/
def createIn (model : Model) : TxFunction :=
  fun database store past => Create database model store past

/-- An environment configuring the connection "main" for postgres. -/
def postgresVariables : Variables :=
  { Get := fun key =>
      if key = "TMD_DATABASE_main_TYPE" then ("postgres", none)
      else if key = "TMD_DATABASE_main_HOST" then ("localhost", none)
      else if key = "TMD_DATABASE_main_SSL_MODE" then ("disable", none)
      else if key = "TMD_DATABASE_main_NAME" then ("shop", none)
      else if key = "TMD_DATABASE_main_USER" then ("app", none)
      else if key = "TMD_DATABASE_main_PASSWORD" then ("secret", none)
      else ("", some "environment variable not set"),
    GetInt64 := fun key =>
      if key = "TMD_DB_main_POSTGRES_PORT" then (5432, none)
      else (0, some "environment variable not set") }

/-- An environment in which no variable is set: every lookup reports an error
next to Go's zero value. -/
def unsetVariables : Variables :=
  { Get := fun _ => ("", some "environment variable not set"),
    GetInt64 := fun _ => (0, some "environment variable not set") }

/-! ## Lemmas on `Sprintf` and `getEntityID` -/

theorem Sprintf_storeError (e : String) :
    Sprintf "relational database: %s" [e] = "relational database: " ++ e := by
  apply String.ext
  simp [Sprintf, sprintfChars]

theorem Sprintf_insertError (n : String) :
    Sprintf
      "relational database: it is not possible to insert a model \"%v\" with the pre-filled ID field"
      [n]
    = "relational database: it is not possible to insert a model \"" ++ n
        ++ "\" with the pre-filled ID field" := by
  apply String.ext
  simp [Sprintf, sprintfChars]

theorem Sprintf_updateError (n : String) :
    Sprintf
      "relational database: it is not possible to update a model \"%v\" with the blank ID field"
      [n]
    = "relational database: it is not possible to update a model \"" ++ n
        ++ "\" with the blank ID field" := by
  apply String.ext
  simp [Sprintf, sprintfChars]

theorem wrapStoreError_eq (reply : Option String) :
    wrapStoreError reply
      = reply.map (fun e => GoError.errorf ("relational database: " ++ e)) := by
  cases reply <;> simp [wrapStoreError, Errorf, Sprintf_storeError]

/-- A well-typed field declared `int64` holds an `int64` value. -/
theorem Field.int64_value (f : Field) (hd : f.declared = GoType.int64)
    (ht : f.wellTyped) : ∃ v, f.value = GoValue.int64 v := by
  rcases ht with h | h
  · rw [hd] at h; cases h
  · rw [hd] at h
    cases hv : f.value <;> rw [hv] at h <;> simp [GoValue.dynamicType] at h
    exact ⟨_, rfl⟩

/-- On a record whose `ID` field is declared `int64`, `getEntityID` returns the
field's value and no error. -/
theorem getEntityID_int64 (model : Model) (f : Field) (v : Int)
    (hf : model.field "ID" = some f) (hd : f.declared = GoType.int64)
    (hv : f.value = GoValue.int64 v) : getEntityID model = Outcome.ret (v, none) := by
  simp [getEntityID, GetTypeAndValue, hf, hd, hv]

/-! ## Identity guard: `Create` and `Update` -/

/-- C1: on a record whose `ID` field is declared `int64`, holding the value `v`,
`Create` returns the pre-filled-ID error without any store call exactly when
`v ≠ 0`; when `v = 0` it issues exactly one store call, `Create` with that
record, and returns `nil` if the store reports no error. -/
theorem Create_identity_guard (database : RelationalDatabase) (model : Model)
    (store : Store) (past : List StoreCall) (f : Field)
    (hf : model.field "ID" = some f) (hd : f.declared = GoType.int64)
    (ht : f.wellTyped) :
    ∃ v, f.value = GoValue.int64 v ∧
      (Create database model store past
          = (Outcome.ret (some (GoError.errorf
              ("relational database: it is not possible to insert a model \""
                ++ model.typeName ++ "\" with the pre-filled ID field"))), past)
        ↔ v ≠ 0) ∧
      (v = 0 →
        (Create database model store past).2
            = past ++ [StoreCall.Create database.DB model] ∧
        (store.error past (StoreCall.Create database.DB model) = none →
          (Create database model store past).1 = Outcome.ret none)) := by
  obtain ⟨v, hv⟩ := Field.int64_value f hd ht
  refine ⟨v, hv, ?_, ?_⟩
  · by_cases h0 : v = 0
    · simp [Create, getEntityID_int64 model f v hf hd hv, h0]
    · simp [Create, getEntityID_int64 model f v hf hd hv, h0, Errorf,
        Sprintf_insertError, GetTypeName]
  · intro h0
    refine ⟨?_, ?_⟩
    · simp [Create, getEntityID_int64 model f v hf hd hv, h0]
    · intro hs
      simp [Create, getEntityID_int64 model f v hf hd hv, h0, hs, wrapStoreError]

/-- The record `{ID: 0, Name: "a"}` passes the guard of `Create`. -/
theorem Create_identity_guard_witness :
    newUser.field "ID" = some ⟨"ID", GoType.int64, GoValue.int64 0⟩ ∧
    Create sampleDatabase newUser quietStore []
      = (Outcome.ret none, [StoreCall.Create sampleDatabase.DB newUser]) := by
  refine ⟨by decide, ?_⟩
  obtain ⟨v, hv, -, h⟩ :=
    Create_identity_guard sampleDatabase newUser quietStore []
      ⟨"ID", GoType.int64, GoValue.int64 0⟩ (by decide) rfl (by decide)
  have h0 : v = 0 := by
    have := GoValue.int64.inj hv
    exact this.symm
  obtain ⟨h2, h1⟩ := h h0
  exact Prod.ext (h1 rfl) h2

/-- C2: on a record whose `ID` field is declared `int64`, holding the value `v`,
`Update` returns the blank-ID error without any store call exactly when
`v = 0`; when `v ≠ 0` it issues exactly one store call, `Save` with that
record, and returns `nil` if the store reports no error. -/
theorem Update_identity_guard (database : RelationalDatabase) (model : Model)
    (store : Store) (past : List StoreCall) (f : Field)
    (hf : model.field "ID" = some f) (hd : f.declared = GoType.int64)
    (ht : f.wellTyped) :
    ∃ v, f.value = GoValue.int64 v ∧
      (Update database model store past
          = (Outcome.ret (some (GoError.errorf
              ("relational database: it is not possible to update a model \""
                ++ model.typeName ++ "\" with the blank ID field"))), past)
        ↔ v = 0) ∧
      (v ≠ 0 →
        (Update database model store past).2
            = past ++ [StoreCall.Save database.DB model] ∧
        (store.error past (StoreCall.Save database.DB model) = none →
          (Update database model store past).1 = Outcome.ret none)) := by
  obtain ⟨v, hv⟩ := Field.int64_value f hd ht
  refine ⟨v, hv, ?_, ?_⟩
  · by_cases h0 : v = 0
    · simp [Update, getEntityID_int64 model f v hf hd hv, h0, Errorf,
        Sprintf_updateError, GetTypeName]
    · simp [Update, getEntityID_int64 model f v hf hd hv, h0]
  · intro h0
    refine ⟨?_, ?_⟩
    · simp [Update, getEntityID_int64 model f v hf hd hv, h0]
    · intro hs
      simp [Update, getEntityID_int64 model f v hf hd hv, h0, hs, wrapStoreError]

/-- The record `{ID: 5, Name: "a"}` passes the guard of `Update`. -/
theorem Update_identity_guard_witness :
    storedUser.field "ID" = some ⟨"ID", GoType.int64, GoValue.int64 5⟩ ∧
    Update sampleDatabase storedUser quietStore []
      = (Outcome.ret none, [StoreCall.Save sampleDatabase.DB storedUser]) := by
  refine ⟨by decide, ?_⟩
  obtain ⟨v, hv, -, h⟩ :=
    Update_identity_guard sampleDatabase storedUser quietStore []
      ⟨"ID", GoType.int64, GoValue.int64 5⟩ (by decide) rfl (by decide)
  have h5 : v = 5 := by
    have := GoValue.int64.inj hv
    exact this.symm
  obtain ⟨h2, h1⟩ := h (by rw [h5]; decide)
  exact Prod.ext (h1 rfl) h2

/-- C3: on the record `{ID: "abc"}`, whose `ID` field is declared `string`,
`getEntityID` does not return the type-mismatch error: the type assertion
panics, and so do `Create` and `Update`, without a store call. -/
theorem getEntityID_string_ID_panics :
    getEntityID textTicket
        = Outcome.panic (Panic.interfaceConversion (some GoType.string)) ∧
      (∀ (database : RelationalDatabase) (store : Store) (past : List StoreCall),
        Create database textTicket store past
            = (Outcome.panic (Panic.interfaceConversion (some GoType.string)), past) ∧
          Update database textTicket store past
            = (Outcome.panic (Panic.interfaceConversion (some GoType.string)), past)) := by
  have h : getEntityID textTicket
      = Outcome.panic (Panic.interfaceConversion (some GoType.string)) := by decide
  refine ⟨h, ?_⟩
  intro database store past
  simp [Create, Update, h]

/-- A well-typed `ID` field declared with a type other than `int64` and other
than `interface{}` makes `getEntityID` panic. -/
theorem getEntityID_mismatch_panics (model : Model) (f : Field)
    (hf : model.field "ID" = some f) (hd : f.declared ≠ GoType.int64)
    (hi : f.declared ≠ GoType.emptyInterface) (ht : f.wellTyped) :
    getEntityID model = Outcome.panic (Panic.interfaceConversion (some f.declared)) := by
  rcases ht with h | h
  · exact absurd h hi
  · cases hv : f.value <;> rw [hv] at h <;>
      simp [GoValue.dynamicType] at h <;>
      simp [getEntityID, GetTypeAndValue, hf, hv, GoValue.dynamicType, h]
    exact absurd h.symm hd

/-! ## `Transaction` -/

/-- C4: when `function`, run against the facade bound to the handle `Begin`
gave (same connection name, after the one `Begin` call), returns `r`, then
`Transaction` returns `r` and adds exactly one call on that handle after those
of `function`: `Commit` when `r` is `nil`, `Rollback` when `r` is an error. -/
theorem Transaction_commit_or_rollback (database : RelationalDatabase)
    (function : TxFunction) (store : Store) (past calls : List StoreCall)
    (r : Option GoError)
    (hfn : function
        { DB := store.handle past (StoreCall.Begin database.DB),
          connectionName := database.connectionName }
        store (past ++ [StoreCall.Begin database.DB]) = (Outcome.ret r, calls)) :
    (r = none →
      Transaction database function store past
        = (Outcome.ret none,
            calls ++ [StoreCall.Commit (store.handle past (StoreCall.Begin database.DB))])) ∧
    (∀ err, r = some err →
      Transaction database function store past
        = (Outcome.ret (some err),
            calls ++ [StoreCall.Rollback (store.handle past (StoreCall.Begin database.DB))])) := by
  refine ⟨?_, ?_⟩
  · intro hr
    subst hr
    simp [Transaction, hfn]
  · intro err hr
    subst hr
    simp [Transaction, hfn]

/-- Creating `{ID: 0}` in a transaction on a quiet store: `Begin`, `Create` on
the transaction handle, `Commit`. -/
theorem Transaction_commit_or_rollback_witness :
    Transaction sampleDatabase (createIn newUser) quietStore []
      = (Outcome.ret none,
          [StoreCall.Begin ⟨1⟩, StoreCall.Create ⟨2⟩ newUser, StoreCall.Commit ⟨2⟩]) :=
  (Transaction_commit_or_rollback sampleDatabase (createIn newUser) quietStore []
    [StoreCall.Begin ⟨1⟩, StoreCall.Create ⟨2⟩ newUser] none (by decide)).1 rfl

/-- C10: whatever the store answers to `Begin`, `Commit` and `Rollback`,
`Transaction` ends exactly as `function` ended on the transaction facade: it
returns the error `function` returned and no other. -/
theorem Transaction_returns_function_error (database : RelationalDatabase)
    (function : TxFunction) (store : Store) (past : List StoreCall) :
    (Transaction database function store past).1
      = (function
          { DB := store.handle past (StoreCall.Begin database.DB),
            connectionName := database.connectionName }
          store (past ++ [StoreCall.Begin database.DB])).1 ∧
    (store.error (past ++ [StoreCall.Begin database.DB])
          (StoreCall.Commit (store.handle past (StoreCall.Begin database.DB)))
        = some "commit failed" →
      Transaction database (fun _ _ calls => (Outcome.ret none, calls)) store past
        = (Outcome.ret none,
            past ++ [StoreCall.Begin database.DB] ++
              [StoreCall.Commit (store.handle past (StoreCall.Begin database.DB))])) := by
  refine ⟨?_, fun _ => rfl⟩
  simp only [Transaction]
  split <;> simp_all

/-- A store whose `Commit` fails: `Transaction` still returns `nil` when the
function does. -/
theorem Transaction_returns_function_error_witness :
    Transaction sampleDatabase (fun _ _ calls => (Outcome.ret none, calls))
        { error := fun _ _ => some "commit failed", handle := fun _ _ => ⟨2⟩ } []
      = (Outcome.ret none, [StoreCall.Begin ⟨1⟩, StoreCall.Commit ⟨2⟩]) :=
  (Transaction_returns_function_error sampleDatabase
    (fun _ _ calls => (Outcome.ret none, calls))
    { error := fun _ _ => some "commit failed", handle := fun _ _ => ⟨2⟩ } []).2 rfl

/-! ## `SelectByID` -/

/-- C6: `SelectByID` called with id 3 looks up key 10, and for every id the key
handed to the store's `First` is 10, so calls with different ids issue the same
lookup. -/
theorem SelectByID_key_is_ten :
    (SelectByID sampleDatabase newUser 3 quietStore []).2
        = [StoreCall.First sampleDatabase.DB newUser 10] ∧
      (∀ (database : RelationalDatabase) (model : Model) (id : Nat) (store : Store)
          (past : List StoreCall),
        (SelectByID database model id store past).2
          = past ++ [StoreCall.First database.DB model 10]) :=
  ⟨rfl, fun _ _ _ _ _ => rfl⟩

/-! ## Store errors -/

/-- C7, as stated, fails for `SelectByID`: on a store that reports "record not
found" it returns a non-nil error. -/
theorem SelectByID_surfaces_not_found :
    notFoundStore.error [] (StoreCall.First sampleDatabase.DB newUser 10)
        = some "record not found" ∧
      (SelectByID sampleDatabase newUser 10 notFoundStore []).1
        = Outcome.ret (some (GoError.errorf "relational database: record not found")) ∧
      (SelectByID sampleDatabase newUser 10 notFoundStore []).1 ≠ Outcome.ret none := by
  decide

/-- C7, amended: when the store answers "record not found", `SelectAll` and
`Filter` return `nil`, while `SelectByID`, `DeleteByID` and, once their guard
has passed, `Create` and `Update` return the wrapped, non-nil error. -/
theorem not_found_downgraded_by_find_only (database : RelationalDatabase)
    (store : Store) (past : List StoreCall)
    (hstore : ∀ call, store.error past call = some "record not found") :
    (∀ models, (SelectAll database models store past).1 = Outcome.ret none) ∧
    (∀ models query, (Filter database models query store past).1 = Outcome.ret none) ∧
    (∀ model id, (SelectByID database model id store past).1
      = Outcome.ret (some (GoError.errorf "relational database: record not found"))) ∧
    (∀ model id, (DeleteByID database model id store past).1
      = Outcome.ret (some (GoError.errorf "relational database: record not found"))) ∧
    (∀ model, getEntityID model = Outcome.ret (0, none) →
      Create database model store past
        = (Outcome.ret (some (GoError.errorf "relational database: record not found")),
            past ++ [StoreCall.Create database.DB model])) ∧
    (∀ model v, v ≠ 0 → getEntityID model = Outcome.ret (v, none) →
      Update database model store past
        = (Outcome.ret (some (GoError.errorf "relational database: record not found")),
            past ++ [StoreCall.Save database.DB model])) := by
  have hw : wrapStoreError (some "record not found")
      = some (GoError.errorf "relational database: record not found") := by decide
  refine ⟨?_, ?_, ?_, ?_, ?_, ?_⟩
  · intro models
    simp [SelectAll, hstore, wrapFindError]
  · intro models query
    simp [Filter, hstore, wrapFindError]
  · intro model id
    simp [SelectByID, hstore, hw]
  · intro model id
    simp [DeleteByID, hstore, hw]
  · intro model hg
    simp [Create, hg, hstore, hw]
  · intro model v hv hg
    simp [Update, hg, hv, hstore, hw]

/-- On the store that always answers "record not found": `SelectAll` returns
`nil`, `Create` of `{ID: 0}` returns the wrapped error. -/
theorem not_found_downgraded_by_find_only_witness :
    (∀ call, notFoundStore.error [] call = some "record not found") ∧
    (SelectAll sampleDatabase newUser notFoundStore []).1 = Outcome.ret none ∧
    Create sampleDatabase newUser notFoundStore []
      = (Outcome.ret (some (GoError.errorf "relational database: record not found")),
          [StoreCall.Create sampleDatabase.DB newUser]) :=
  have h := not_found_downgraded_by_find_only sampleDatabase notFoundStore []
    (fun _ => rfl)
  ⟨fun _ => rfl, h.1 newUser, h.2.2.2.2.1 newUser (by decide)⟩

/-- C8: with `reply` the store's answer to the one call an operation issues,
each of `Create`, `Update`, `DeleteByID`, `SelectByID`, `SelectAll` and
`Filter`, on every record, id and filter, returns `nil` when `reply` is `nil`,
and the error whose text is "relational database: " followed by the store's
text when `reply` is an error (for `SelectAll` and `Filter`: an error other
than "record not found"; for `Create` and `Update`: on the records whose
identity guard passes, the only ones for which the store is called). -/
theorem store_error_wrapped (database : RelationalDatabase) (store : Store)
    (past : List StoreCall) :
    (∀ model : Model, getEntityID model = Outcome.ret (0, none) →
      (Create database model store past).1
        = Outcome.ret ((store.error past (StoreCall.Create database.DB model)).map
            (fun e => GoError.errorf ("relational database: " ++ e)))) ∧
    (∀ (model : Model) (v : Int), v ≠ 0 → getEntityID model = Outcome.ret (v, none) →
      (Update database model store past).1
        = Outcome.ret ((store.error past (StoreCall.Save database.DB model)).map
            (fun e => GoError.errorf ("relational database: " ++ e)))) ∧
    (∀ (model : Model) (id : Nat),
      (DeleteByID database model id store past).1
        = Outcome.ret ((store.error past (StoreCall.Delete database.DB model id)).map
            (fun e => GoError.errorf ("relational database: " ++ e)))) ∧
    (∀ (model : Model) (id : Nat),
      (SelectByID database model id store past).1
        = Outcome.ret ((store.error past (StoreCall.First database.DB model 10)).map
            (fun e => GoError.errorf ("relational database: " ++ e)))) ∧
    (∀ models : Model,
      store.error past (StoreCall.Find database.DB models) ≠ some "record not found" →
      (SelectAll database models store past).1
        = Outcome.ret ((store.error past (StoreCall.Find database.DB models)).map
            (fun e => GoError.errorf ("relational database: " ++ e)))) ∧
    (∀ models modelFilter : Model,
      store.error past (StoreCall.WhereFind database.DB modelFilter models)
        ≠ some "record not found" →
      (Filter database models modelFilter store past).1
        = Outcome.ret
            ((store.error past (StoreCall.WhereFind database.DB modelFilter models)).map
              (fun e => GoError.errorf ("relational database: " ++ e)))) := by
  have hfind : ∀ reply : Option String, reply ≠ some "record not found" →
      wrapFindError reply
        = reply.map (fun e => GoError.errorf ("relational database: " ++ e)) := by
    intro reply hne
    cases reply with
    | none => rfl
    | some e =>
      have : e ≠ "record not found" := fun h => hne (by rw [h])
      simp [wrapFindError, this, wrapStoreError_eq]
  refine ⟨?_, ?_, ?_, ?_, ?_, ?_⟩
  · intro model hcreate
    simp [Create, hcreate, wrapStoreError_eq]
  · intro model v hv hupdate
    simp [Update, hupdate, hv, wrapStoreError_eq]
  · intro model id
    simp [DeleteByID, wrapStoreError_eq]
  · intro model id
    simp [SelectByID, wrapStoreError_eq]
  · intro models hne
    simp [SelectAll, hfind _ hne]
  · intro models modelFilter hne
    simp [Filter, hfind _ hne]

/-- A store answering "duplicate key" to every call: `Create` of `{ID: 0}`,
`Update` and `DeleteByID` of `{ID: 5}`, `SelectByID` on a record without an
`ID` field, and `Filter` by `{ID: 0, Name: "a"}` all return the store's text
behind "relational database: ". -/
theorem store_error_wrapped_witness :
    getEntityID newUser = Outcome.ret (0, none) ∧
    getEntityID storedUser = Outcome.ret (5, none) ∧
    (Create sampleDatabase newUser
        { error := fun _ _ => some "duplicate key", handle := fun _ _ => ⟨2⟩ } []).1
      = Outcome.ret (some (GoError.errorf "relational database: duplicate key")) ∧
    (Update sampleDatabase storedUser
        { error := fun _ _ => some "duplicate key", handle := fun _ _ => ⟨2⟩ } []).1
      = Outcome.ret (some (GoError.errorf "relational database: duplicate key")) ∧
    (DeleteByID sampleDatabase storedUser 5
        { error := fun _ _ => some "duplicate key", handle := fun _ _ => ⟨2⟩ } []).1
      = Outcome.ret (some (GoError.errorf "relational database: duplicate key")) ∧
    (SelectByID sampleDatabase { typeName := "Note", fields := [] } 5
        { error := fun _ _ => some "duplicate key", handle := fun _ _ => ⟨2⟩ } []).1
      = Outcome.ret (some (GoError.errorf "relational database: duplicate key")) ∧
    (Filter sampleDatabase { typeName := "[]User", fields := [] } newUser
        { error := fun _ _ => some "duplicate key", handle := fun _ _ => ⟨2⟩ } []).1
      = Outcome.ret (some (GoError.errorf "relational database: duplicate key")) :=
  have h := store_error_wrapped sampleDatabase
    { error := fun _ _ => some "duplicate key", handle := fun _ _ => ⟨2⟩ } []
  ⟨by decide, by decide, h.1 newUser (by decide), h.2.1 storedUser 5 (by decide) (by decide),
    h.2.2.1 storedUser 5, h.2.2.2.1 { typeName := "Note", fields := [] } 5,
    h.2.2.2.2.2 { typeName := "[]User", fields := [] } newUser (by decide)⟩

/-! ## Connection parameters -/

theorem Sprintf_stringKey (c n : String) :
    Sprintf "TMD_DATABASE_%v_%v" [c, n] = "TMD_DATABASE_" ++ c ++ "_" ++ n := by
  apply String.ext
  simp [Sprintf, sprintfChars]

theorem Sprintf_intKey (c n : String) :
    Sprintf "TMD_DB_%v_%v" [c, n] = "TMD_DB_" ++ c ++ "_" ++ n := by
  apply String.ext
  simp [Sprintf, sprintfChars]

theorem Sprintf_dsn (host port sslMode databaseName user password : String) :
    Sprintf "host=%v port=%v sslmode=%v dbname=%v user=%v password=%v"
        [host, port, sslMode, databaseName, user, password]
      = "host=" ++ host ++ " port=" ++ port ++ " sslmode=" ++ sslMode
          ++ " dbname=" ++ databaseName ++ " user=" ++ user
          ++ " password=" ++ password := by
  apply String.ext
  simp [Sprintf, sprintfChars]

/-- The DSN is never the text "postgres": it is longer. -/
theorem dsn_ne_postgres (vars : Variables) (name : String) :
    (getDsnFromEnvironment vars name).2 ≠ "postgres" := by
  intro h
  have hl := congrArg String.length h
  simp only [getDsnFromEnvironment, Sprintf_dsn, String.length_append] at hl
  have h1 : "host=".length = 5 := by decide
  have h2 : " port=".length = 6 := by decide
  have h3 : " sslmode=".length = 9 := by decide
  have h4 : " dbname=".length = 8 := by decide
  have h5 : " user=".length = 6 := by decide
  have h6 : " password=".length = 10 := by decide
  have h7 : "postgres".length = 8 := by decide
  rw [h1, h2, h3, h4, h5, h6, h7] at hl
  omega

/-- Whatever the environment holds, `Connect` hands `gorm.Open` no dialector. -/
theorem Connect_dialector_nil (database : RelationalDatabase) (name : String)
    (vars : Variables) (store : Store) (past : List StoreCall) :
    (Connect database name vars store past).2 = past ++ [StoreCall.Open none] := by
  have hne := dsn_ne_postgres vars name
  have hsel : selectDialector (getDsnFromEnvironment vars name).2
      (getDsnFromEnvironment vars name).1 = none := by
    simp [selectDialector, hne]
  simp only [Connect, hsel]
  split <;> rfl

/-- With no variable set, every string value is empty and the port is 0. -/
theorem getDsnFromEnvironment_unset :
    getDsnFromEnvironment unsetVariables "main"
      = ("", "host= port=0 sslmode= dbname= user= password=") := by
  decide

/-- C9: the DSN is "host=<HOST> port=<PORT> sslmode=<SSL_MODE> dbname=<NAME>
user=<USER> password=<PASSWORD>", each value being what the lookup of that
parameter's key returns: `TMD_DATABASE_<name>_HOST`, `_SSL_MODE`, `_NAME`,
`_USER`, `_PASSWORD` for the strings and `TMD_DB_<name>_POSTGRES_PORT` for the
port, printed in decimal. -/
theorem getDsnFromEnvironment_format (vars : Variables) (connectionName : String) :
    (getDsnFromEnvironment vars connectionName).2
      = "host=" ++ (vars.Get ("TMD_DATABASE_" ++ connectionName ++ "_HOST")).1
        ++ " port="
        ++ toString (vars.GetInt64 ("TMD_DB_" ++ connectionName ++ "_POSTGRES_PORT")).1
        ++ " sslmode=" ++ (vars.Get ("TMD_DATABASE_" ++ connectionName ++ "_SSL_MODE")).1
        ++ " dbname=" ++ (vars.Get ("TMD_DATABASE_" ++ connectionName ++ "_NAME")).1
        ++ " user=" ++ (vars.Get ("TMD_DATABASE_" ++ connectionName ++ "_USER")).1
        ++ " password="
        ++ (vars.Get ("TMD_DATABASE_" ++ connectionName ++ "_PASSWORD")).1 := by
  have k1 : "_" ++ "HOST" = "_HOST" := by decide
  have k2 : "_" ++ "POSTGRES_PORT" = "_POSTGRES_PORT" := by decide
  have k3 : "_" ++ "SSL_MODE" = "_SSL_MODE" := by decide
  have k4 : "_" ++ "NAME" = "_NAME" := by decide
  have k5 : "_" ++ "USER" = "_USER" := by decide
  have k6 : "_" ++ "PASSWORD" = "_PASSWORD" := by decide
  simp only [getDsnFromEnvironment, getParameterFromEnvironment,
    getIntParameterFromEnvironment, Sprintf_dsn, Sprintf_stringKey, Sprintf_intKey,
    formatInt64, String.append_assoc, k1, k2, k3, k4, k5, k6]

/-- C5: with `TMD_DATABASE_main_TYPE` set to "postgres", `Connect("main")`
hands the store's `Open` a nil dialector, not the postgres dialector of the
composed DSN. -/
theorem Connect_postgres_dialector_is_nil :
    (getDsnFromEnvironment postgresVariables "main").1 = "postgres" ∧
    (getDsnFromEnvironment postgresVariables "main").2
      = "host=localhost port=5432 sslmode=disable dbname=shop user=app password=secret" ∧
    (Connect sampleDatabase "main" postgresVariables quietStore []).2
      = [StoreCall.Open none] ∧
    (∀ (database : RelationalDatabase) (store : Store) (past : List StoreCall),
      (Connect database "main" postgresVariables store past).2
        = past ++ [StoreCall.Open none]) := by
  refine ⟨by decide, by decide, ?_, ?_⟩
  · exact Connect_dialector_nil sampleDatabase "main" postgresVariables quietStore []
  · intro database store past
    exact Connect_dialector_nil database "main" postgresVariables store past

end relational
